import Mathlib

/-!
Shallow embedding of the `aws-app-mesh-weighted-routing` CDK topology compiler.

The embedding follows the source files:
  - `lib/envoy-fargate-service.ts` — `EnvoyFargateService` (the spec's ReplicaUnit),
  - `lib/app-mesh-service.ts` — `AppMeshService` (the spec's RouteGroup),
  - `lib/aws-app-mesh-weighted-routing-stack.ts` — the stack (the spec's TopologyGraph),
  - `containers/serviceA/app.js` — the gateway HTTP handler.

Constructors are modelled as pure functions from the constructor inputs to a record of
the resources the constructor creates (`new` expressions in the TypeScript body); where
a claim counts emitted resources, the record stores the list of resources the body
creates, in creation order.
-/

/-- `interface AppMeshRoute { name, weight }` from `lib/app-mesh-service.ts`. -/
structure AppMeshRoute where
  name : String
  weight : Nat
deriving Repr, DecidableEq, Inhabited

/-- `interface AppEnvironment { mesh, cluster, namespace, hostedZone }`, reduced to the
attributes the compiler logic reads: the mesh name, the Cloud Map namespace name, and
the hosted zone name. -/
structure AppEnvironment where
  meshName : String
  namespaceName : String
  zoneName : String
deriving Repr, DecidableEq, Inhabited

/-- `interface AppMeta { name, port }` from `lib/envoy-fargate-service.ts`. -/
structure AppMeta where
  name : String
  port : Nat
deriving Repr, DecidableEq, Inhabited

/-- Health-check configuration of a virtual node listener
(`appmesh.HealthCheck.http({...})` in `createVirtualNode`). -/
structure HealthCheckConf where
  path : String
  healthyThreshold : Nat
  intervalSeconds : Nat
  timeoutSeconds : Nat
  unhealthyThreshold : Nat
deriving Repr, DecidableEq, Inhabited

/-- The `ecs.FargateService` created by `createFargateService`: desired count, and the
Cloud Map (DNS service-discovery) registration options it passes. -/
structure FargateServiceRes where
  desiredCount : Nat
  cloudMapNamespace : String
  cloudMapName : String
deriving Repr, DecidableEq, Inhabited

/-- The `appmesh.VirtualNode` created by `createVirtualNode`. -/
structure VirtualNodeRes where
  meshName : String
  virtualNodeName : String
  listenerPort : Nat
  healthCheck : HealthCheckConf
  accessLogPath : String
deriving Repr, DecidableEq, Inhabited

/-- `class EnvoyFargateService` from `lib/envoy-fargate-service.ts`: its `meta` and the
Fargate service and virtual node it creates. -/
structure EnvoyFargateService where
  meta : AppMeta
  environment : AppEnvironment
  fargateService : FargateServiceRes
  virtualNode : VirtualNodeRes
deriving Repr, DecidableEq, Inhabited

/-- Embedding of the `EnvoyFargateService` constructor: `createFargateService` sets
`desiredCount: 1` and `cloudMapOptions.name: this.meta.name`; `createVirtualNode` sets
`virtualNodeName: this.meta.name`, an HTTP listener on `this.meta.port`, and a health
check polling path `/health` with interval 5s, timeout 2s, thresholds 3/2. -/
def mkEnvoyFargateService (environment : AppEnvironment) (meta : AppMeta) :
    EnvoyFargateService :=
  { meta := meta
    environment := environment
    fargateService :=
      { desiredCount := 1
        cloudMapNamespace := environment.namespaceName
        cloudMapName := meta.name }
    virtualNode :=
      { meshName := environment.meshName
        virtualNodeName := meta.name
        listenerPort := meta.port
        healthCheck :=
          { path := "/health"
            healthyThreshold := 3
            intervalSeconds := 5
            timeoutSeconds := 2
            unhealthyThreshold := 2 }
        accessLogPath := "/dev/stdout" } }

/-- One entry of the `weightedTargets` array in the `AppMeshService` constructor. -/
structure WeightedTarget where
  virtualNode : VirtualNodeRes
  weight : Nat
deriving Repr, DecidableEq, Inhabited

/-- The `appmesh.VirtualRouter` created by the `AppMeshService` constructor. -/
structure VirtualRouterRes where
  meshName : String
  listenerPort : Nat
deriving Repr, DecidableEq, Inhabited

/-- The route registered by `virtualRouter.addRoute` in the `AppMeshService`
constructor. -/
structure RouteRes where
  routeName : String
  weightedTargets : List WeightedTarget
deriving Repr, DecidableEq, Inhabited

/-- The `appmesh.VirtualService` created by the `AppMeshService` constructor. -/
structure VirtualServiceRes where
  virtualServiceName : String
  providerRouter : VirtualRouterRes
deriving Repr, DecidableEq, Inhabited

/-- The `route53.ARecord` created by the `AppMeshService` constructor. -/
structure ARecordRes where
  zoneName : String
  recordName : String
  target : String
deriving Repr, DecidableEq, Inhabited

/-- `interface AppMeshServiceProps { name, port, routes, environment }`. -/
structure AppMeshServiceProps where
  name : String
  port : Nat
  routes : List AppMeshRoute
  environment : AppEnvironment
deriving Repr, DecidableEq, Inhabited

/-- `class AppMeshService` from `lib/app-mesh-service.ts`: the units it instantiates and
the router, route, virtual services and A records its constructor creates.
`virtualServices` and `aRecords` are the lists of those resources created by the
constructor body, in creation order (the body executes one `new appmesh.VirtualService`
and one `new route53.ARecord`). -/
structure AppMeshService where
  name : String
  environment : AppEnvironment
  envoyFargateServices : List EnvoyFargateService
  virtualRouter : VirtualRouterRes
  route : RouteRes
  virtualServices : List VirtualServiceRes
  aRecords : List ARecordRes
deriving Repr, DecidableEq, Inhabited

/-- The class field `virtualService` (the single virtual service the constructor
created). -/
def AppMeshService.virtualService (g : AppMeshService) : VirtualServiceRes :=
  g.virtualServices.getD 0 default

/-- The fixed placeholder address of the A record
(`route53.RecordTarget.fromIpAddresses('10.10.10.10')`). -/
def placeholderIp : String := "10.10.10.10"

/-- Embedding of the `AppMeshService` constructor, line by line:
`this.envoyFargateServices = props.routes.map(r => new EnvoyFargateService(..., {meta:
{name: r.name, port: props.port}, ...}))`; a `VirtualRouter` listening on `props.port`;
`weightedTargets = this.envoyFargateServices.map((s, idx) => ({virtualNode:
s.virtualNode, weight: props.routes[idx].weight}))`; one route
`Route_${props.name}` over those targets; one `VirtualService` named
`${props.name}.${zoneName}`.toLowerCase() provided by the router; and one `ARecord`
with the same name targeting the fixed placeholder address. -/
def mkAppMeshService (props : AppMeshServiceProps) : AppMeshService :=
  let envoyFargateServices := props.routes.map fun r =>
    mkEnvoyFargateService props.environment { name := r.name, port := props.port }
  let virtualRouter : VirtualRouterRes :=
    { meshName := props.environment.meshName, listenerPort := props.port }
  let weightedTargets := envoyFargateServices.enum.map fun p =>
    ({ virtualNode := p.2.virtualNode
       weight := (props.routes.getD p.1 default).weight } : WeightedTarget)
  { name := props.name
    environment := props.environment
    envoyFargateServices := envoyFargateServices
    virtualRouter := virtualRouter
    route := { routeName := "Route_" ++ props.name, weightedTargets := weightedTargets }
    virtualServices :=
      [{ virtualServiceName := (props.name ++ "." ++ props.environment.zoneName).toLower
         providerRouter := virtualRouter }]
    aRecords :=
      [{ zoneName := props.environment.zoneName
         recordName := (props.name ++ "." ++ props.environment.zoneName).toLower
         target := placeholderIp }] }

/-- A mesh-backend declaration emitted by `from.virtualNode.addBackend(
appmesh.Backend.virtualService(service.virtualService))`. -/
structure BackendDecl where
  fromVirtualNode : String
  backendVirtualServiceName : String
deriving Repr, DecidableEq, Inhabited

/-- A network permission grant emitted by `from.fargateService.connections.allowTo(
to.fargateService, ec2.Port.tcp(to.meta.port), description)`. -/
structure PermissionGrant where
  fromUnit : String
  toUnit : String
  port : Nat
  description : String
deriving Repr, DecidableEq, Inhabited

/-- Embedding of `AppMeshService.addBackends`: the outer `forEach` over
`this.envoyFargateServices` adds one backend declaration per unit (each referencing
`service.virtualService`), and the inner `forEach` over `service.envoyFargateServices`
grants one network permission per ordered pair on the target unit's port. The result is
the pair (backend declarations, permission grants), each in emission order. -/
def addBackends (self other : AppMeshService) :
    List BackendDecl × List PermissionGrant :=
  ( self.envoyFargateServices.map fun f =>
      { fromVirtualNode := f.virtualNode.virtualNodeName
        backendVirtualServiceName := other.virtualService.virtualServiceName }
  , self.envoyFargateServices.flatMap fun f =>
      other.envoyFargateServices.map fun t =>
        { fromUnit := f.meta.name
          toUnit := t.meta.name
          port := t.meta.port
          description := "Allow inbound traffic from " ++ f.meta.name ++ " to " ++
            t.meta.name ++ " (TCP " ++ toString t.meta.port ++ ")" } )

/-- A listener added by `loadBalancer.addListener` in `createExternalLoadBalancer`. -/
structure ListenerRes where
  port : Nat
  protocol : String
deriving Repr, DecidableEq, Inhabited

/-- The target group added by `listener.addTargets` in `createExternalLoadBalancer`. -/
structure TargetGroupRes where
  port : Nat
  protocol : String
  targets : List String
  healthCheckPath : String
deriving Repr, DecidableEq, Inhabited

/-- The resources one call of `createExternalLoadBalancer` creates: an internet-facing
application load balancer with its listeners and target group, plus the stack output of
its DNS name. -/
structure FrontDoor where
  unitName : String
  internetFacing : Bool
  listeners : List ListenerRes
  targetGroup : TargetGroupRes
deriving Repr, DecidableEq, Inhabited

/-- Embedding of `EnvoyFargateService.createExternalLoadBalancer`: one internet-facing
load balancer, one listener on port 80 (HTTP), one target group forwarding to
`this.meta.port` with health-check path `/health`, targeting `this.fargateService`. -/
def createExternalLoadBalancer (s : EnvoyFargateService) : FrontDoor :=
  { unitName := s.meta.name
    internetFacing := true
    listeners := [{ port := 80, protocol := "HTTP" }]
    targetGroup :=
      { port := s.meta.port
        protocol := "HTTP"
        targets := [s.meta.name]
        healthCheckPath := "/health" } }

/-- One call of the edge-exposure operation in emission style: appends the front door
created by `createExternalLoadBalancer` to the accumulated list of front doors created
so far. Each call creates a fresh front door; nothing de-duplicates repeated calls on
the same unit. -/
def attachFrontDoor (s : EnvoyFargateService) (acc : List FrontDoor) : List FrontDoor :=
  acc ++ [createExternalLoadBalancer s]

/-- Minimal JSON values, enough for the gateway handler's response bodies. -/
inductive Json where
  | str : String → Json
  | obj : List (String × Json) → Json

instance : Inhabited Json := ⟨Json.str ""⟩

/-- An HTTP response of the express app: `res.json(body)` responds with the default
status 200 and the JSON body. -/
structure HttpResponse where
  status : Nat
  body : Json

instance : Inhabited HttpResponse := ⟨{ status := 200, body := default }⟩

/-- Embedding of the `app.get('/serviceb', ...)` handler of `containers/serviceA/app.js`.
The downstream `axios.get('http://serviceb.appmesh.local:3000/version')` is modelled by
its outcome: `.ok data` for a successful response body, `.error e` for a thrown failure,
where the `String` `e` stands for the stringified failure `JSON.stringify(e)`. On
success the handler responds `res.json({serviceB: resp.data})`; on failure the `catch`
block responds `res.json({error: JSON.stringify(e)})`. `res.json` uses the default
status 200 in both branches. -/
def handleServiceB (downstream : Except String Json) : HttpResponse :=
  match downstream with
  | .ok data => { status := 200, body := Json.obj [("serviceB", data)] }
  | .error e => { status := 200, body := Json.obj [("error", Json.str e)] }

/-- Input description of a whole topology: the route groups in declaration order, the
may-call edges as index pairs into `groups` (each compiled by `addBackends`), and the
edge exposures as (group index, unit index) pairs (each compiled by
`createExternalLoadBalancer`). -/
structure TopologyInput where
  groups : List AppMeshServiceProps
  edges : List (Nat × Nat)
  exposures : List (Nat × Nat)
deriving Repr, DecidableEq, Inhabited

/-- The compiled topology: the groups in declaration order, the backend/permission
edges in call order, and the front doors in call order. -/
structure TopologyGraph where
  groups : List AppMeshService
  backendEdges : List (List BackendDecl × List PermissionGrant)
  frontDoors : List FrontDoor
deriving Repr, DecidableEq, Inhabited

/-- Embedding of the stack's compile flow (`AwsAppmeshWeightedRoutingStack`): construct
each group in declaration order with `mkAppMeshService`, then compile each declared
may-call edge with `addBackends` in call order, then attach each declared edge exposure
in call order. -/
def compileTopologyGraph (t : TopologyInput) : TopologyGraph :=
  let gs := t.groups.map mkAppMeshService
  { groups := gs
    backendEdges := t.edges.map fun e =>
      addBackends (gs.getD e.1 default) (gs.getD e.2 default)
    frontDoors := t.exposures.foldl (fun acc e =>
      attachFrontDoor ((gs.getD e.1 default).envoyFargateServices.getD e.2 default) acc) [] }

/-- The shared environment the stack builds: mesh `Mesh`, Cloud Map namespace
`cloudmap.local`, hosted zone `appmesh.local`. -/
def stackEnvironment : AppEnvironment :=
  { meshName := "Mesh", namespaceName := "cloudmap.local", zoneName := "appmesh.local" }

/-- The props of service A in the stack: one route of weight 1. -/
def serviceAProps : AppMeshServiceProps :=
  { name := "serviceA"
    port := 3000
    routes := [{ name := "serviceA", weight := 1 }]
    environment := stackEnvironment }

/-- The props of service B in the stack: routes `serviceB_v1` (weight 4) and
`serviceB_v2` (weight 1). -/
def serviceBProps : AppMeshServiceProps :=
  { name := "serviceB"
    port := 3000
    routes :=
      [{ name := "serviceB_v1", weight := 4 }, { name := "serviceB_v2", weight := 1 }]
    environment := stackEnvironment }

/-- The stack's topology input: groups A and B, one may-call edge A to B
(`serviceA.addBackends(serviceB)`), and one edge exposure on A's first unit
(`serviceA.envoyFargateServices[0].createExternalLoadBalancer()`). -/
def stackInput : TopologyInput :=
  { groups := [serviceAProps, serviceBProps]
    edges := [(0, 1)]
    exposures := [(0, 0)] }

/-- A TCP port is valid when it is between 1 and 65535. -/
def validPort (port : Nat) : Bool :=
  decide (1 ≤ port ∧ port ≤ 65535)

/-- The ReplicaUnit names a list of group props declares, in order. -/
def topologyNames (ps : List AppMeshServiceProps) : List String :=
  ps.flatMap fun p => p.routes.map (·.name)

/-- Modelled from the spec: the compile-time contract checks of spec section 7. The
repository's `src/` contains no explicit validation code — failing fast on a duplicate
ReplicaUnit name, an empty routes list, or an invalid port is behavior of the CDK
framework (duplicate construct ids abort construction; malformed resources abort
synthesis), which is not part of this repository. Group compilation is therefore
modelled as fallible: it checks that the routes list is nonempty, that the port is a
valid TCP port, and that the group's unit names are pairwise distinct and unused by
earlier groups, threading the names already used through the compile; any violation
aborts with an error and produces no group. -/
def compileRouteGroup (used : List String) (props : AppMeshServiceProps) :
    Except String (AppMeshService × List String) :=
  let names := props.routes.map (·.name)
  if props.routes.isEmpty then
    .error ("empty routes list for group " ++ props.name)
  else if !validPort props.port then
    .error ("invalid port for group " ++ props.name)
  else if !decide (names.Nodup ∧ ∀ n ∈ names, n ∉ used) then
    .error ("duplicate ReplicaUnit name in group " ++ props.name)
  else
    .ok (mkAppMeshService props, used ++ names)

/-- Modelled from the spec: fallible compilation of the whole group list. The first
contract violation aborts the whole compile (spec section 7: "no partial graph — the
whole compile aborts"). -/
def compileTopology (used : List String) :
    List AppMeshServiceProps → Except String (List AppMeshService)
  | [] => .ok []
  | p :: ps =>
    match compileRouteGroup used p with
    | .error e => .error e
    | .ok (g, used') =>
      match compileTopology used' ps with
      | .error e => .error e
      | .ok gs => .ok (g :: gs)

theorem enumFrom_map_getD {α β γ : Type} [Inhabited α] (f : α → β) (g : β → α → γ)
    (l : List α) : ∀ s : List α,
      (List.enumFrom s.length (l.map f)).map
          (fun p => g p.2 ((s ++ l).getD p.1 default)) =
        l.map (fun a => g (f a) a) := by
  induction l with
  | nil => intro s; rfl
  | cons a t ih =>
    intro s
    have hhead : (s ++ a :: t).getD s.length default = a := by
      rw [List.getD_eq_getElem?_getD, List.getElem?_append_right (Nat.le_refl s.length)]
      simp
    have htail := ih (s ++ [a])
    simp only [List.length_append, List.length_cons, List.length_nil, Nat.zero_add,
      Nat.add_zero, List.append_assoc, List.singleton_append] at htail
    simp only [List.map_cons, List.enumFrom, List.map, hhead, htail]

theorem mkAppMeshService_weightedTargets (props : AppMeshServiceProps) :
    (mkAppMeshService props).route.weightedTargets =
      props.routes.map fun r =>
        ({ virtualNode := (mkEnvoyFargateService props.environment
              { name := r.name, port := props.port }).virtualNode
           weight := r.weight } : WeightedTarget) := by
  have h := enumFrom_map_getD
      (fun r : AppMeshRoute =>
        mkEnvoyFargateService props.environment { name := r.name, port := props.port })
      (fun s r => ({ virtualNode := s.virtualNode, weight := r.weight } : WeightedTarget))
      props.routes []
  simpa [mkAppMeshService, List.enum] using h

/-- C1: for every RouteGroup created with routes (name_1, w_1) .. (name_n, w_n) whose
weights are not all zero, the route registered on the group's router has exactly n
weighted targets, the i-th pairing the virtual node of the ReplicaUnit instantiated for
name_i with weight w_i, in input order. -/
theorem routeGroup_weightedTargets (props : AppMeshServiceProps)
    (_h : ∃ r ∈ props.routes, r.weight ≠ 0) :
    (mkAppMeshService props).route.weightedTargets =
      props.routes.map fun r =>
        ({ virtualNode := (mkEnvoyFargateService props.environment
              { name := r.name, port := props.port }).virtualNode
           weight := r.weight } : WeightedTarget) :=
  mkAppMeshService_weightedTargets props

/-- Witness for C1 at the stack's service B (weights 4 and 1, not all zero). -/
theorem routeGroup_weightedTargets_witness :
    (∃ r ∈ serviceBProps.routes, r.weight ≠ 0) ∧
      (mkAppMeshService serviceBProps).route.weightedTargets =
        serviceBProps.routes.map fun r =>
          ({ virtualNode := (mkEnvoyFargateService serviceBProps.environment
                { name := r.name, port := serviceBProps.port }).virtualNode
             weight := r.weight } : WeightedTarget) :=
  ⟨by decide, routeGroup_weightedTargets serviceBProps (by decide)⟩

/-- C5: every RouteGroup with group name g over zone z publishes exactly one virtual
service, named the lowercase of `g.z`, provided by the group's single virtual router,
regardless of how many ReplicaUnits back the group. -/
theorem routeGroup_single_published_identity (props : AppMeshServiceProps) :
    (mkAppMeshService props).virtualServices =
      [{ virtualServiceName := (props.name ++ "." ++ props.environment.zoneName).toLower
         providerRouter := (mkAppMeshService props).virtualRouter }] :=
  rfl

/-- C7: every ReplicaUnit of every RouteGroup uses its one name both as the DNS
service-discovery registration name (Cloud Map) and as the mesh virtual-node name. -/
theorem unit_name_shared_by_discovery_and_mesh (props : AppMeshServiceProps)
    (u : EnvoyFargateService)
    (h : u ∈ (mkAppMeshService props).envoyFargateServices) :
    u.fargateService.cloudMapName = u.meta.name ∧
      u.virtualNode.virtualNodeName = u.meta.name := by
  simp only [mkAppMeshService, List.mem_map] at h
  obtain ⟨r, _, rfl⟩ := h
  exact ⟨rfl, rfl⟩

/-- Witness for C7 at the first unit of the stack's service B. -/
theorem unit_name_shared_by_discovery_and_mesh_witness :
    (mkEnvoyFargateService stackEnvironment { name := "serviceB_v1", port := 3000 }) ∈
        (mkAppMeshService serviceBProps).envoyFargateServices ∧
      (mkEnvoyFargateService stackEnvironment
            { name := "serviceB_v1", port := 3000 }).fargateService.cloudMapName =
          "serviceB_v1" :=
  ⟨by decide,
    (unit_name_shared_by_discovery_and_mesh serviceBProps
        (mkEnvoyFargateService stackEnvironment { name := "serviceB_v1", port := 3000 })
        (by decide)).1⟩

/-- C8: every RouteGroup registers exactly one DNS A record, under the same lowercase
name `g.z` as its published identity, targeting the same fixed placeholder address for
every group. -/
theorem routeGroup_placeholder_dns_record (props : AppMeshServiceProps) :
    (mkAppMeshService props).aRecords =
      [{ zoneName := props.environment.zoneName
         recordName := (props.name ++ "." ++ props.environment.zoneName).toLower
         target := placeholderIp }] ∧
      (mkAppMeshService props).aRecords.map (fun a => a.recordName) =
        (mkAppMeshService props).virtualServices.map (fun v => v.virtualServiceName) :=
  ⟨rfl, rfl⟩

/-- C9: each call of `createExternalLoadBalancer` creates one front door with a single
listener on the fixed public port 80, forwarding to the target unit's port with the
unit's health-check path; attaching twice appends two independent front doors (the
operation is not idempotent). -/
theorem edgeExposure_front_door (s : EnvoyFargateService) (acc : List FrontDoor) :
    (attachFrontDoor s acc).length = acc.length + 1 ∧
      (attachFrontDoor s (attachFrontDoor s acc)).length = acc.length + 2 ∧
      (createExternalLoadBalancer s).listeners = [{ port := 80, protocol := "HTTP" }] ∧
      (createExternalLoadBalancer s).targetGroup.port = s.meta.port ∧
      (createExternalLoadBalancer s).targetGroup.targets = [s.meta.name] ∧
      (∀ environment meta,
        (createExternalLoadBalancer (mkEnvoyFargateService environment meta)
            ).targetGroup.healthCheckPath =
          (mkEnvoyFargateService environment meta).virtualNode.healthCheck.path) := by
  refine ⟨?_, ?_, rfl, rfl, rfl, fun _ _ => rfl⟩ <;> simp [attachFrontDoor]

/-- C10: every ReplicaUnit of every group of every compiled topology has a desired
replica count of exactly 1, independent of its route entry's weight and of every other
input. -/
theorem unit_desired_count_one (t : TopologyInput) (g : AppMeshService)
    (hg : g ∈ (compileTopologyGraph t).groups) (u : EnvoyFargateService)
    (hu : u ∈ g.envoyFargateServices) :
    u.fargateService.desiredCount = 1 := by
  simp only [compileTopologyGraph, List.mem_map] at hg
  obtain ⟨p, _, rfl⟩ := hg
  simp only [mkAppMeshService, List.mem_map] at hu
  obtain ⟨r, _, rfl⟩ := hu
  rfl

/-- Witness for C10 at the stack input's service A unit. -/
theorem unit_desired_count_one_witness :
    (mkAppMeshService serviceAProps) ∈ (compileTopologyGraph stackInput).groups ∧
      (mkEnvoyFargateService stackEnvironment { name := "serviceA", port := 3000 }) ∈
        (mkAppMeshService serviceAProps).envoyFargateServices ∧
      (mkEnvoyFargateService stackEnvironment
          { name := "serviceA", port := 3000 }).fargateService.desiredCount = 1 :=
  ⟨by simp [compileTopologyGraph, stackInput],
    by simp [mkAppMeshService, serviceAProps],
    unit_desired_count_one stackInput (mkAppMeshService serviceAProps)
      (by simp [compileTopologyGraph, stackInput])
      (mkEnvoyFargateService stackEnvironment { name := "serviceA", port := 3000 })
      (by simp [mkAppMeshService, serviceAProps])⟩

/-- C6: the gateway's `/serviceb` handler responds to a failed downstream call with
status 200 and body `{error: <stringified failure>}`, and to a successful downstream
call with status 200 and body `{serviceB: <downstream body>}`; every downstream outcome
yields a response (no unhandled fault). -/
theorem handleServiceB_responses (e : String) (data : Json) :
    handleServiceB (Except.error e) =
        { status := 200, body := Json.obj [("error", Json.str e)] } ∧
      handleServiceB (Except.ok data) =
        { status := 200, body := Json.obj [("serviceB", data)] } ∧
      (∀ downstream : Except String Json,
        200 ≤ (handleServiceB downstream).status ∧
          (handleServiceB downstream).status < 300) := by
  refine ⟨rfl, rfl, fun downstream => ?_⟩
  cases downstream <;> exact ⟨by simp [handleServiceB], by simp [handleServiceB]⟩

theorem length_flatMap_map {α β γ : Type} (l : List α) (l2 : List β) (g : α → β → γ) :
    (l.flatMap fun a => l2.map fun b => g a b).length = l.length * l2.length := by
  induction l with
  | nil => simp
  | cons a t ih => simp [List.flatMap_cons, ih, Nat.succ_mul, Nat.add_comm]

/-- C2: for RouteGroups A (N units) and B (M units), `A.addBackends(B)` emits exactly
N mesh-backend declarations, each referencing B's single published virtual service, and
exactly N*M network permission grants, one from each unit of A to each unit of B on the
target unit's port. -/
theorem addBackends_edges (A B : AppMeshService) :
    (addBackends A B).1.length = A.envoyFargateServices.length ∧
      (addBackends A B).2.length =
        A.envoyFargateServices.length * B.envoyFargateServices.length ∧
      (∀ d ∈ (addBackends A B).1,
        d.backendVirtualServiceName = B.virtualService.virtualServiceName) ∧
      (∀ f ∈ A.envoyFargateServices, ∀ t ∈ B.envoyFargateServices,
        ∃ g ∈ (addBackends A B).2,
          g.fromUnit = f.meta.name ∧ g.toUnit = t.meta.name ∧ g.port = t.meta.port) := by
  refine ⟨by simp [addBackends], length_flatMap_map .., ?_, ?_⟩
  · intro d hd
    simp only [addBackends, List.mem_map] at hd
    obtain ⟨f, _, rfl⟩ := hd
    rfl
  · intro f hf t ht
    refine ⟨{ fromUnit := f.meta.name
              toUnit := t.meta.name
              port := t.meta.port
              description := "Allow inbound traffic from " ++ f.meta.name ++ " to " ++
                t.meta.name ++ " (TCP " ++ toString t.meta.port ++ ")" },
      ?_, rfl, rfl, rfl⟩
    simp only [addBackends, List.mem_flatMap, List.mem_map]
    exact ⟨f, hf, t, ht, rfl⟩

/-- Witness for C2 at the stack's call `serviceA.addBackends(serviceB)`:
N = 1, M = 2, hence 1 declaration and 2 grants. -/
theorem addBackends_edges_witness :
    (addBackends (mkAppMeshService serviceAProps)
          (mkAppMeshService serviceBProps)).1.length =
        (mkAppMeshService serviceAProps).envoyFargateServices.length ∧
      (addBackends (mkAppMeshService serviceAProps)
            (mkAppMeshService serviceBProps)).2.length =
          (mkAppMeshService serviceAProps).envoyFargateServices.length *
            (mkAppMeshService serviceBProps).envoyFargateServices.length ∧
      (addBackends (mkAppMeshService serviceAProps)
            (mkAppMeshService serviceBProps)).1.length = 1 ∧
      (addBackends (mkAppMeshService serviceAProps)
            (mkAppMeshService serviceBProps)).2.length = 1 * 2 :=
  ⟨(addBackends_edges (mkAppMeshService serviceAProps)
        (mkAppMeshService serviceBProps)).1,
    (addBackends_edges (mkAppMeshService serviceAProps)
        (mkAppMeshService serviceBProps)).2.1,
    by rfl, by rfl⟩

/-- C4: compilation is deterministic — two compiles of equal topology inputs produce
structurally identical graphs: equal groups in declaration order, equal replica lists,
equal weighted-target lists, equal backend/permission edges in call order, and equal
front doors. -/
theorem compile_deterministic (t₁ t₂ : TopologyInput) (h : t₁ = t₂) :
    compileTopologyGraph t₁ = compileTopologyGraph t₂ ∧
      (compileTopologyGraph t₁).groups = (compileTopologyGraph t₂).groups ∧
      (compileTopologyGraph t₁).groups.map (fun g => g.envoyFargateServices) =
        (compileTopologyGraph t₂).groups.map (fun g => g.envoyFargateServices) ∧
      (compileTopologyGraph t₁).groups.map (fun g => g.route.weightedTargets) =
        (compileTopologyGraph t₂).groups.map (fun g => g.route.weightedTargets) ∧
      (compileTopologyGraph t₁).backendEdges = (compileTopologyGraph t₂).backendEdges ∧
      (compileTopologyGraph t₁).frontDoors = (compileTopologyGraph t₂).frontDoors := by
  subst h
  exact ⟨rfl, rfl, rfl, rfl, rfl, rfl⟩

/-- Witness for C4 at the stack's topology input. -/
theorem compile_deterministic_witness :
    stackInput = stackInput ∧
      compileTopologyGraph stackInput = compileTopologyGraph stackInput :=
  ⟨rfl, (compile_deterministic stackInput stackInput rfl).1⟩

theorem compileTopology_ok_valid :
    ∀ (ps : List AppMeshServiceProps) (used : List String) (gs : List AppMeshService),
      compileTopology used ps = Except.ok gs →
        (∀ p ∈ ps, p.routes ≠ [] ∧ validPort p.port = true) ∧
          (topologyNames ps).Nodup ∧ ∀ n ∈ topologyNames ps, n ∉ used := by
  intro ps
  induction ps with
  | nil =>
    intro used gs _
    exact ⟨by simp, by simp [topologyNames], by simp [topologyNames]⟩
  | cons p ps ih =>
    intro used gs h
    simp only [compileTopology] at h
    cases hg : compileRouteGroup used p with
    | error e => rw [hg] at h; exact absurd h (by simp)
    | ok val =>
      obtain ⟨g, used'⟩ := val
      simp only [hg] at h
      cases hh : compileTopology used' ps with
      | error e => simp [hh] at h
      | ok gs' =>
        simp only [compileRouteGroup] at hg
        split_ifs at hg with h1 h2 h3
        all_goals simp only [Except.ok.injEq, Prod.mk.injEq, reduceCtorEq] at hg
        obtain ⟨-, husd⟩ := hg
        have hport : validPort p.port = true := by
          rcases Bool.eq_false_or_eq_true (validPort p.port) with hd | hd
          · exact hd
          · rw [hd] at h2; simp at h2
        have hC : (List.map (fun r => r.name) p.routes).Nodup ∧
            ∀ n ∈ List.map (fun r => r.name) p.routes, n ∉ used := by
          have hb : decide ((List.map (fun r => r.name) p.routes).Nodup ∧
              ∀ n ∈ List.map (fun r => r.name) p.routes, n ∉ used) = true := by
            rcases Bool.eq_false_or_eq_true (decide
                ((List.map (fun r => r.name) p.routes).Nodup ∧
                  ∀ n ∈ List.map (fun r => r.name) p.routes, n ∉ used)) with hd | hd
            · exact hd
            · rw [hd] at h3; simp at h3
          exact of_decide_eq_true hb
        obtain ⟨hps, hnodup, hnotin⟩ := ih used' gs' hh
        rw [← husd] at hnotin
        have hsplit : topologyNames (p :: ps) =
            List.map (fun r => r.name) p.routes ++ topologyNames ps := by
          simp [topologyNames]
        refine ⟨?_, ?_, ?_⟩
        · intro q hq
          rcases List.mem_cons.1 hq with hq | hq
          · subst hq
            exact ⟨fun he => h1 (by simp [he]), hport⟩
          · exact hps q hq
        · rw [hsplit, List.nodup_append]
          refine ⟨hC.1, hnodup, ?_⟩
          intro a ha har
          exact (hnotin a har) (List.mem_append.2 (Or.inr ha))
        · intro n hn
          rw [hsplit] at hn
          rcases List.mem_append.1 hn with hn | hn
          · exact hC.2 n hn
          · exact fun hu => (hnotin n hn) (List.mem_append.2 (Or.inl hu))

/-- C3: for every input list of group props containing a compile-time contract
violation — an empty routes list, an invalid port, or a duplicate ReplicaUnit name —
the modelled compile produces no partial graph: the whole compile aborts with an
error. -/
theorem compile_aborts_on_contract_violation (ps : List AppMeshServiceProps)
    (h : ¬ ((∀ p ∈ ps, p.routes ≠ [] ∧ validPort p.port = true) ∧
        (topologyNames ps).Nodup)) :
    ∃ e, compileTopology [] ps = Except.error e := by
  cases hc : compileTopology [] ps with
  | error e => exact ⟨e, rfl⟩
  | ok gs =>
    obtain ⟨ha, hb, -⟩ := compileTopology_ok_valid ps [] gs hc
    exact absurd ⟨ha, hb⟩ h

/-- Group props with a duplicate ReplicaUnit name, violating the compile-time
contract. -/
def duplicateNameProps : AppMeshServiceProps :=
  { name := "g"
    port := 3000
    routes := [{ name := "x", weight := 1 }, { name := "x", weight := 2 }]
    environment := stackEnvironment }

/-- Witness for C3 at a topology whose single group declares a duplicate unit name. -/
theorem compile_aborts_on_contract_violation_witness :
    (¬ ((∀ p ∈ [duplicateNameProps], p.routes ≠ [] ∧ validPort p.port = true) ∧
        (topologyNames [duplicateNameProps]).Nodup)) ∧
      ∃ e, compileTopology [] [duplicateNameProps] = Except.error e :=
  ⟨by decide, compile_aborts_on_contract_violation [duplicateNameProps] (by decide)⟩
